import Mathlib

/-!
Shallow embedding of `src/gopro2gpx/gopro2gpx.py` (functions `BuildGPSPoints`
and `main`): a single-pass state machine over a list of tagged telemetry
records, producing accepted GPS points and run statistics.

Numeric payloads are modelled over ℚ (Python floats are used by the source
only for division and comparisons at the magnitudes involved here).
Python exceptions are modelled with `Except`.
-/

namespace Gopro2Gpx

/-- Modelled from the spec: `fourCC.XYZData`, the three-component ScaleVector
(its defining module is not under src/); the source initialises the scale
context with `fourCC.XYZData(1.0, 1.0, 1.0)` and applies it elementwise. -/
structure XYZData where
  x : ℚ
  y : ℚ
  z : ℚ
deriving DecidableEq, Repr

/-- Modelled from the spec: `fourCC.SYSTData`, a (seconds, miliseconds) pair
(its defining module is not under src/); the source initialises it with
`fourCC.SYSTData(0, 0)` and accesses `.seconds` / `.miliseconds`. -/
structure SYSTData where
  seconds : ℚ
  miliseconds : ℚ
deriving DecidableEq, Repr

/-- Modelled from the spec: one sample of a `GPS5` record
(`fourCC.GPSData` is not under src/): unscaled latitude, longitude,
altitude and the 2D/3D speed fields, in that order. -/
structure GPS5Sample where
  lat : ℚ
  lon : ℚ
  alt : ℚ
  speed : ℚ
  speed3d : ℚ
deriving DecidableEq, Repr

/-- Modelled from the spec: the single embedded sample of a `GPRI` record
(`fourCC.KARMAGPSData` is not under src/): latitude, longitude, altitude
and speed, accessed by name in the source. -/
structure GPRISample where
  lat : ℚ
  lon : ℚ
  alt : ℚ
  speed : ℚ
deriving DecidableEq, Repr

/-- A timestamp attached to an accepted point: either decoded from the
device-time (`GPSU`) context via `datetime.fromtimestamp(time.mktime(...))`,
or taken from the system-time (`SYST`) context's `miliseconds` field via
`datetime.fromtimestamp(...)`. The decoding functions are injective wall-clock
conversions; we keep their arguments symbolically. -/
inductive Timestamp where
  | fromGPSU (t : ℕ)
  | fromSYST (ms : ℚ)
deriving DecidableEq, Repr

/-- `gpshelper.GPSPoint` as constructed by the source:
latitude, longitude, altitude, timestamp, speed. -/
structure GPSPoint where
  lat : ℚ
  lon : ℚ
  alt : ℚ
  time : Timestamp
  speed : ℚ
deriving DecidableEq, Repr

/-- One decoded telemetry record: a fourCC tag with its payload.
`other` stands for every tag the state machine does not dispatch on. -/
inductive Record where
  | SCAL (v : XYZData)
  | GPSU (t : ℕ)
  | GPSF (fix : ℤ)
  | GPS5 (samples : List GPS5Sample)
  | SYST (v : SYSTData)
  | GPRI (sample : GPRISample)
  | other
deriving DecidableEq, Repr

/-- Whether a record is a `GPSU` (device-time) record. -/
def Record.isGPSU : Record → Bool
  | .GPSU _ => true
  | _ => false

/-- The error raised when the source constructs a point while the device-time
context is still `None`: `time.mktime(None)` raises a `TypeError`. -/
inductive BuildError where
  | gpsuNone
deriving DecidableEq, Repr

/-- The mutable locals of `BuildGPSPoints`, threaded through the fold. -/
structure FSMState where
  last_lat : Option ℚ
  last_lon : Option ℚ
  points : List GPSPoint
  SCAL : XYZData
  GPSU : Option ℕ
  SYST : SYSTData
  start_time : Option ℕ
  ok : ℕ
  badfix : ℕ
  badfixskip : ℕ
  empty : ℕ
  GPSFIX : Option ℤ
  GPSFIX_next : ℤ
deriving DecidableEq, Repr

/-- Initial values of the locals of `BuildGPSPoints`. -/
def initState : FSMState where
  last_lat := none
  last_lon := none
  points := []
  SCAL := ⟨1, 1, 1⟩
  GPSU := none
  SYST := ⟨0, 0⟩
  start_time := none
  ok := 0
  badfix := 0
  badfixskip := 0
  empty := 0
  GPSFIX := none
  GPSFIX_next := 0

/-- Scaling of a `GPS5` sample:
`[float(x) / float(y) for x, y in zip(item._asdict().values(), list(SCAL))]`,
pairing the sample's spatial fields with the three scale components in order.
Modelled from the spec for the field pairing (the namedtuple field order lives
in the missing `fourCC` module): the three divisors apply to the spatial
fields; the speed fields are carried through. -/
def scaleGPS5 (sc : XYZData) (item : GPS5Sample) : GPS5Sample :=
  { item with lat := item.lat / sc.x, lon := item.lon / sc.y, alt := item.alt / sc.z }

/-- Scaling of a `GPRI` sample, same elementwise rule as `scaleGPS5`. -/
def scaleGPRI (sc : XYZData) (s : GPRISample) : GPRISample :=
  { s with lat := s.lat / sc.x, lon := s.lon / sc.y, alt := s.alt / sc.z }

/-- The spatial-glitch test for one axis:
`last is not None and abs(abs(last) - abs(new)) > 1.0`. -/
def bigJump (last : Option ℚ) (v : ℚ) : Bool :=
  match last with
  | none => false
  | some l => decide (|(|l| - |v|)| > 1)

/-- The tail of the `GPS5` per-sample loop, after the empty and fix checks:
scaling, the spatial-glitch filter on latitude then longitude, and point
construction. Constructing the timestamp with `GPSU = None` fails
(`time.mktime(None)` raises `TypeError`). -/
def processSampleTail (st : FSMState) (item : GPS5Sample) : Except BuildError FSMState :=
  let gpsdata := scaleGPS5 st.SCAL item
  if bigJump st.last_lat gpsdata.lat then
    Except.ok st
  else if bigJump st.last_lon gpsdata.lon then
    Except.ok st
  else
    match st.GPSU with
    | none => Except.error BuildError.gpsuNone
    | some t =>
        Except.ok { st with
          points := st.points ++ [⟨gpsdata.lat, gpsdata.lon, gpsdata.alt,
                                   Timestamp.fromGPSU t, gpsdata.speed⟩]
          ok := st.ok + 1
          last_lat := some gpsdata.lat
          last_lon := some gpsdata.lon }

/-- One iteration of the `GPS5` per-sample loop: the empty check
(`item.lon == item.lat == item.alt == 0`), the fix check (`GPSFIX == 0`,
false when the fix context is still `None`), then `processSampleTail`. -/
def processGPS5Sample (skip : Bool) (st : FSMState) (item : GPS5Sample) :
    Except BuildError FSMState :=
  if item.lon = item.lat ∧ item.lat = item.alt ∧ item.alt = 0 then
    Except.ok { st with empty := st.empty + 1 }
  else if st.GPSFIX = some 0 then
    let st1 := { st with badfix := st.badfix + 1 }
    if skip then
      Except.ok { st1 with badfixskip := st1.badfixskip + 1 }
    else
      processSampleTail st1 item
  else
    processSampleTail st item

/-- The `GPS5` per-sample loop over the record's repeated group. -/
def processGPS5 (skip : Bool) (st : FSMState) : List GPS5Sample → Except BuildError FSMState
  | [] => Except.ok st
  | item :: rest =>
      match processGPS5Sample skip st item with
      | Except.error e => Except.error e
      | Except.ok st' => processGPS5 skip st' rest

/-- The tail of the `GPRI` branch after the empty and fix checks: scaling,
then point construction from the system-time context when both of its fields
are non-zero. No glitch filter; `last_lat` / `last_lon` are not touched. -/
def processGPRITail (st : FSMState) (s : GPRISample) : FSMState :=
  let gpsdata := scaleGPRI st.SCAL s
  if st.SYST.seconds ≠ 0 ∧ st.SYST.miliseconds ≠ 0 then
    { st with
      points := st.points ++ [⟨gpsdata.lat, gpsdata.lon, gpsdata.alt,
                               Timestamp.fromSYST st.SYST.miliseconds, gpsdata.speed⟩]
      ok := st.ok + 1 }
  else st

/-- Dispatch on one record, mirroring the `for d in data` body of
`BuildGPSPoints`. -/
def processRecord (skip : Bool) (st : FSMState) : Record → Except BuildError FSMState
  | .SCAL v => Except.ok { st with SCAL := v }
  | .GPSU t =>
      Except.ok { st with
        GPSU := some t
        start_time := if st.start_time.isNone then some t else st.start_time }
  | .GPSF f =>
      let newfix : ℤ :=
        match st.GPSFIX with
        | some _ => st.GPSFIX_next
        | none => f
      Except.ok { st with GPSFIX := some newfix, GPSFIX_next := f }
  | .GPS5 samples => processGPS5 skip st samples
  | .SYST v =>
      let s0 := v.seconds / st.SCAL.x
      let s1 := v.miliseconds / st.SCAL.y
      if s0 ≠ 0 ∧ s1 ≠ 0 then Except.ok { st with SYST := ⟨s0, s1⟩ }
      else Except.ok st
  | .GPRI s =>
      if s.lon = s.lat ∧ s.lat = s.alt ∧ s.alt = 0 then
        Except.ok { st with empty := st.empty + 1 }
      else if st.GPSFIX = some 0 then
        let st1 := { st with badfix := st.badfix + 1 }
        if skip then
          Except.ok { st1 with badfixskip := st1.badfixskip + 1 }
        else
          Except.ok (processGPRITail st1 s)
      else
        Except.ok (processGPRITail st s)
  | .other => Except.ok st

/-- The fold of `BuildGPSPoints` over the record sequence. -/
def processRecords (skip : Bool) (st : FSMState) : List Record → Except BuildError FSMState
  | [] => Except.ok st
  | r :: rs =>
      match processRecord skip st r with
      | Except.error e => Except.error e
      | Except.ok st' => processRecords skip st' rs

/-- `BuildGPSPoints(data, skip)`: returns `(points, start_time)`. -/
def BuildGPSPoints (data : List Record) (skip : Bool) :
    Except BuildError (List GPSPoint × Option ℕ) :=
  (processRecords skip initState data).map (fun st => (st.points, st.start_time))

/-- The result of one per-file call of `BuildGPSPoints` as seen by `main`. -/
structure FileResult where
  points : List GPSPoint
  start_time : Option ℕ
deriving DecidableEq, Repr

/-- The outcome of `main`'s output phase: either `sys.exit(0)` inside the
per-file loop, or both output files written from the accumulated points. -/
inductive MainOutcome where
  | exit0
  | wrote (points : List GPSPoint) (start_time : Option ℕ)
deriving DecidableEq, Repr

/-- The per-file loop of `main`: take each file's result, keep the first
non-`None` start time, concatenate the points, and `sys.exit(0)` as soon as
the accumulated list is empty after a file; after the loop, write the KML and
GPX output from the accumulated points. -/
def mainLoop (points : List GPSPoint) (start_time : Option ℕ) :
    List FileResult → MainOutcome
  | [] => .wrote points start_time
  | f :: fs =>
      let start_time' := if start_time.isNone then f.start_time else start_time
      let points' := points ++ f.points
      if points'.length = 0 then .exit0
      else mainLoop points' start_time' fs

/-- `main`'s accumulation and output phase over the per-file results. -/
def mainRun (files : List FileResult) : MainOutcome :=
  mainLoop [] none files

/-- `main`'s point accumulation over per-file record sequences, with
`BuildGPSPoints` invoked afresh on each file (no state carried across calls);
the exit check is omitted here (it is modelled by `mainRun`). -/
def mainAccumulate (skip : Bool) : List (List Record) → List GPSPoint →
    Except BuildError (List GPSPoint)
  | [], acc => Except.ok acc
  | rs :: rest, acc =>
      match BuildGPSPoints rs skip with
      | Except.error e => Except.error e
      | Except.ok r => mainAccumulate skip rest (acc ++ r.1)

/-- Total number of points accumulated from a list of per-file results. -/
def totalPoints (files : List FileResult) : ℕ :=
  (files.map (fun f => f.points.length)).sum

end Gopro2Gpx

namespace Gopro2Gpx

lemma processRecords_nil (skip : Bool) (st : FSMState) :
    processRecords skip st [] = Except.ok st := rfl

lemma processRecords_cons_ok {skip : Bool} {st st' : FSMState} {r : Record}
    (rs : List Record) (h : processRecord skip st r = Except.ok st') :
    processRecords skip st (r :: rs) = processRecords skip st' rs := by
  simp [processRecords, h]

lemma processGPS5_cons_ok {skip : Bool} {st st' : FSMState} {item : GPS5Sample}
    (rest : List GPS5Sample) (h : processGPS5Sample skip st item = Except.ok st') :
    processGPS5 skip st (item :: rest) = processGPS5 skip st' rest := by
  simp [processGPS5, h]

lemma processRecords_append (skip : Bool) (st : FSMState) (rs1 rs2 : List Record) :
    processRecords skip st (rs1 ++ rs2) =
      match processRecords skip st rs1 with
      | Except.error e => Except.error e
      | Except.ok st' => processRecords skip st' rs2 := by
  induction rs1 generalizing st with
  | nil => simp [processRecords]
  | cons r rs ih =>
      simp only [List.cons_append, processRecords]
      cases processRecord skip st r with
      | error e => rfl
      | ok st' => exact ih st'

lemma processSampleTail_shape {st st' : FSMState} {item : GPS5Sample}
    (h : processSampleTail st item = Except.ok st') :
    (∃ tl, st'.points = st.points ++ tl) ∧ st'.GPSU = st.GPSU := by
  simp only [processSampleTail] at h
  split at h
  · injection h with h; subst h; exact ⟨⟨[], by simp⟩, rfl⟩
  · split at h
    · injection h with h; subst h; exact ⟨⟨[], by simp⟩, rfl⟩
    · split at h
      · exact absurd h (by simp)
      · injection h with h; subst h; exact ⟨⟨_, rfl⟩, rfl⟩

lemma processGPS5Sample_shape {skip : Bool} {st st' : FSMState} {item : GPS5Sample}
    (h : processGPS5Sample skip st item = Except.ok st') :
    (∃ tl, st'.points = st.points ++ tl) ∧ st'.GPSU = st.GPSU := by
  simp only [processGPS5Sample] at h
  split at h
  · injection h with h; subst h; exact ⟨⟨[], by simp⟩, rfl⟩
  · split at h
    · split at h
      · injection h with h; subst h; exact ⟨⟨[], by simp⟩, rfl⟩
      · obtain ⟨hp, hg⟩ := processSampleTail_shape h
        exact ⟨by simpa using hp, by simpa using hg⟩
    · exact processSampleTail_shape h

lemma processGPS5_shape {skip : Bool} {st st' : FSMState} {samples : List GPS5Sample}
    (h : processGPS5 skip st samples = Except.ok st') :
    (∃ tl, st'.points = st.points ++ tl) ∧ st'.GPSU = st.GPSU := by
  induction samples generalizing st with
  | nil =>
      simp only [processGPS5] at h
      injection h with h; subst h; exact ⟨⟨[], by simp⟩, rfl⟩
  | cons item rest ih =>
      simp only [processGPS5] at h
      split at h
      · exact absurd h (by simp)
      · rename_i st1 hs
        obtain ⟨⟨t1, ht1⟩, hg1⟩ := processGPS5Sample_shape hs
        obtain ⟨⟨t2, ht2⟩, hg2⟩ := ih h
        exact ⟨⟨t1 ++ t2, by rw [ht2, ht1, List.append_assoc]⟩, by rw [hg2, hg1]⟩

lemma processGPRITail_shape (st : FSMState) (s : GPRISample) :
    (∃ tl, (processGPRITail st s).points = st.points ++ tl) ∧
      (processGPRITail st s).GPSU = st.GPSU := by
  simp only [processGPRITail]
  split
  · exact ⟨⟨_, rfl⟩, rfl⟩
  · exact ⟨⟨[], by simp⟩, rfl⟩

lemma processRecord_shape {skip : Bool} {st st' : FSMState} {r : Record}
    (h : processRecord skip st r = Except.ok st') :
    (∃ tl, st'.points = st.points ++ tl) ∧ (r.isGPSU = false → st'.GPSU = st.GPSU) := by
  cases r with
  | SCAL v =>
      injection h with h; subst h; exact ⟨⟨[], by simp⟩, fun _ => rfl⟩
  | GPSU t =>
      injection h with h; subst h; exact ⟨⟨[], by simp⟩, fun hc => by simp [Record.isGPSU] at hc⟩
  | GPSF f =>
      injection h with h; subst h; exact ⟨⟨[], by simp⟩, fun _ => rfl⟩
  | GPS5 samples =>
      obtain ⟨hp, hg⟩ := processGPS5_shape h
      exact ⟨hp, fun _ => hg⟩
  | SYST v =>
      simp only [processRecord] at h
      split at h <;> (injection h with h; subst h)
      · exact ⟨⟨[], by simp⟩, fun _ => rfl⟩
      · exact ⟨⟨[], by simp⟩, fun _ => rfl⟩
  | GPRI s =>
      simp only [processRecord] at h
      split at h
      · injection h with h; subst h; exact ⟨⟨[], by simp⟩, fun _ => rfl⟩
      · split at h
        · split at h
          · injection h with h; subst h; exact ⟨⟨[], by simp⟩, fun _ => rfl⟩
          · injection h with h; subst h
            obtain ⟨hp, hg⟩ := processGPRITail_shape { st with badfix := st.badfix + 1 } s
            exact ⟨by simpa using hp, fun _ => by simpa using hg⟩
        · injection h with h; subst h
          obtain ⟨hp, hg⟩ := processGPRITail_shape st s
          exact ⟨hp, fun _ => hg⟩
  | other =>
      injection h with h; subst h; exact ⟨⟨[], by simp⟩, fun _ => rfl⟩

lemma processRecords_shape {skip : Bool} {st st' : FSMState} {rs : List Record}
    (h : processRecords skip st rs = Except.ok st') :
    (∃ tl, st'.points = st.points ++ tl) ∧
      ((∀ r ∈ rs, r.isGPSU = false) → st'.GPSU = st.GPSU) := by
  induction rs generalizing st with
  | nil =>
      simp only [processRecords] at h
      injection h with h; subst h; exact ⟨⟨[], by simp⟩, fun _ => rfl⟩
  | cons r rs ih =>
      simp only [processRecords] at h
      split at h
      · exact absurd h (by simp)
      · rename_i st1 hr
        obtain ⟨⟨t1, ht1⟩, hg1⟩ := processRecord_shape hr
        obtain ⟨⟨t2, ht2⟩, hg2⟩ := ih h
        refine ⟨⟨t1 ++ t2, by rw [ht2, ht1, List.append_assoc]⟩, fun hall => ?_⟩
        rw [hg2 (fun x hx => hall x (List.mem_cons_of_mem _ hx)),
          hg1 (hall r (List.mem_cons_self _ _))]

end Gopro2Gpx

namespace Gopro2Gpx

/-- Claim C1: the fix code used for filtering follows the one-sample-delay
rule: the first `GPSF` code becomes active immediately; on every later `GPSF`
the previously received code becomes active and the new one becomes pending;
after the fix records 5, 0 the active code is 5, not 0. -/
theorem C1_fix_one_sample_delay :
    (∀ (skip : Bool) (st : FSMState) (f : ℤ) (st' : FSMState),
        st.GPSFIX = none →
        processRecord skip st (Record.GPSF f) = Except.ok st' →
        st'.GPSFIX = some f ∧ st'.GPSFIX_next = f) ∧
    (∀ (skip : Bool) (st : FSMState) (c f : ℤ) (st' : FSMState),
        st.GPSFIX = some c →
        processRecord skip st (Record.GPSF f) = Except.ok st' →
        st'.GPSFIX = some st.GPSFIX_next ∧ st'.GPSFIX_next = f) ∧
    (processRecords false initState [Record.GPSF 5, Record.GPSF 0]).map FSMState.GPSFIX
      = Except.ok (some 5) := by
  refine ⟨?_, ?_, rfl⟩
  · intro skip st f st' h1 h2
    simp only [processRecord, h1, Except.ok.injEq] at h2
    subst h2
    exact ⟨rfl, rfl⟩
  · intro skip st c f st' h1 h2
    simp only [processRecord, h1, Except.ok.injEq] at h2
    subst h2
    exact ⟨rfl, rfl⟩

/-- Concrete state reached after the fix records 5, 0: pending code 5. -/
def fixStateA : FSMState :=
  ⟨none, none, [], ⟨1, 1, 1⟩, none, ⟨0, 0⟩, none, 0, 0, 0, 0, some 5, 5⟩

/-- Concrete state reached from `fixStateA` by one more fix record 0. -/
def fixStateB : FSMState :=
  ⟨none, none, [], ⟨1, 1, 1⟩, none, ⟨0, 0⟩, none, 0, 0, 0, 0, some 5, 0⟩

/-- Witness for C1 at a concrete state. -/
theorem C1_fix_one_sample_delay_witness :
    fixStateA.GPSFIX = some 5 ∧
    processRecord false fixStateA (Record.GPSF 0) = Except.ok fixStateB ∧
    (fixStateB.GPSFIX = some fixStateA.GPSFIX_next ∧ fixStateB.GPSFIX_next = 0) :=
  ⟨rfl, rfl, C1_fix_one_sample_delay.2.1 false fixStateA 5 0 fixStateB rfl rfl⟩

/-- State after `SCAL(1,1,1)` (the initial values again). -/
def c2S1 : FSMState := ⟨none, none, [], ⟨1, 1, 1⟩, none, ⟨0, 0⟩, none, 0, 0, 0, 0, none, 0⟩

/-- State after additionally `GPSU(t0)`. -/
def c2S2 (t0 : ℕ) : FSMState :=
  ⟨none, none, [], ⟨1, 1, 1⟩, some t0, ⟨0, 0⟩, some t0, 0, 0, 0, 0, none, 0⟩

/-- State after additionally one or two `GPSF(1)` records. -/
def c2S3 (t0 : ℕ) : FSMState :=
  ⟨none, none, [], ⟨1, 1, 1⟩, some t0, ⟨0, 0⟩, some t0, 0, 0, 0, 0, some 1, 1⟩

/-- State after additionally `GPS5([(10,20,0,0,0)])`: one accepted point. -/
def c2S5 (t0 : ℕ) : FSMState :=
  ⟨some 10, some 20, [⟨10, 20, 0, Timestamp.fromGPSU t0, 0⟩], ⟨1, 1, 1⟩, some t0, ⟨0, 0⟩,
   some t0, 1, 0, 0, 0, some 1, 1⟩

/-- Claim C2: the record sequence
`[SCAL(1,1,1), GPSU(t0), GPSF(1), GPSF(1), GPS5([(10,20,0,0,0)])]` yields,
for any skip policy, exactly one accepted point (10, 20, 0) timestamped t0,
with `ok = 1` and the other counters 0. -/
theorem C2_end_to_end (t0 : ℕ) (skip : Bool) :
    (processRecords skip initState
        [Record.SCAL ⟨1, 1, 1⟩, Record.GPSU t0, Record.GPSF 1, Record.GPSF 1,
         Record.GPS5 [⟨10, 20, 0, 0, 0⟩]]).map
      (fun st => (st.points, st.start_time, st.ok, st.badfix, st.badfixskip, st.empty))
    = Except.ok ([⟨10, 20, 0, Timestamp.fromGPSU t0, 0⟩], some t0, 1, 0, 0, 0) := by
  have h1 : processRecord skip initState (Record.SCAL ⟨1, 1, 1⟩) = Except.ok c2S1 := rfl
  have h2 : processRecord skip c2S1 (Record.GPSU t0) = Except.ok (c2S2 t0) := rfl
  have h3 : processRecord skip (c2S2 t0) (Record.GPSF 1) = Except.ok (c2S3 t0) := rfl
  have h4 : processRecord skip (c2S3 t0) (Record.GPSF 1) = Except.ok (c2S3 t0) := rfl
  have h5 : processRecord skip (c2S3 t0) (Record.GPS5 [⟨10, 20, 0, 0, 0⟩])
      = Except.ok (c2S5 t0) := by
    simp only [processRecord, processGPS5, processGPS5Sample, processSampleTail,
      scaleGPS5, bigJump, c2S3, c2S5]
    norm_num
  rw [processRecords_cons_ok _ h1, processRecords_cons_ok _ h2, processRecords_cons_ok _ h3,
    processRecords_cons_ok _ h4, processRecords_cons_ok _ h5, processRecords_nil]
  rfl

/-- State after `GPSU(100)` in the C3 scenario. -/
def c3S1 : FSMState :=
  ⟨none, none, [], ⟨1, 1, 1⟩, some 100, ⟨0, 0⟩, some 100, 0, 0, 0, 0, none, 0⟩

/-- State after accepting the sample at latitude 45. -/
def c3S2 : FSMState :=
  ⟨some 45, some 10, [⟨45, 10, 1, Timestamp.fromGPSU 100, 0⟩], ⟨1, 1, 1⟩, some 100, ⟨0, 0⟩,
   some 100, 1, 0, 0, 0, none, 0⟩

/-- State after additionally accepting the sample at latitude 45.3 (the one at
46.5 was rejected without touching the state). -/
def c3S3 : FSMState :=
  ⟨some 45.3, some 10,
   [⟨45, 10, 1, Timestamp.fromGPSU 100, 0⟩, ⟨45.3, 10, 1, Timestamp.fromGPSU 100, 0⟩],
   ⟨1, 1, 1⟩, some 100, ⟨0, 0⟩, some 100, 2, 0, 0, 0, none, 0⟩

/-- Claim C3: once a sample has passed the empty and fix checks, a scaled
latitude whose absolute value differs from the previous accepted one by more
than 1 causes rejection with the whole state (previous references included)
unchanged; the identical rule applies to longitude; concretely 45.0 then 46.5
is rejected and 45.3 is then accepted against the still-stored 45.0. -/
theorem C3_spatial_glitch_filter :
    (∀ (st : FSMState) (item : GPS5Sample) (p : ℚ),
        st.last_lat = some p →
        |(|p| - |(scaleGPS5 st.SCAL item).lat|)| > 1 →
        processSampleTail st item = Except.ok st) ∧
    (∀ (st : FSMState) (item : GPS5Sample) (p : ℚ),
        bigJump st.last_lat ((scaleGPS5 st.SCAL item).lat) = false →
        st.last_lon = some p →
        |(|p| - |(scaleGPS5 st.SCAL item).lon|)| > 1 →
        processSampleTail st item = Except.ok st) ∧
    (processRecords false initState
        [Record.GPSU 100,
         Record.GPS5 [⟨45, 10, 1, 0, 0⟩, ⟨46.5, 10, 1, 0, 0⟩, ⟨45.3, 10, 1, 0, 0⟩]]).map
      (fun st => (st.points.map GPSPoint.lat, st.last_lat, st.last_lon, st.ok))
      = Except.ok ([45, 45.3], some 45.3, some 10, 2) := by
  refine ⟨?_, ?_, ?_⟩
  · intro st item p h1 h2
    have hb : bigJump st.last_lat ((scaleGPS5 st.SCAL item).lat) = true := by
      rw [h1]; simpa [bigJump] using h2
    simp [processSampleTail, hb]
  · intro st item p h0 h1 h2
    have hb : bigJump st.last_lon ((scaleGPS5 st.SCAL item).lon) = true := by
      rw [h1]; simpa [bigJump] using h2
    simp [processSampleTail, h0, hb]
  · have g1 : processRecord false initState (Record.GPSU 100) = Except.ok c3S1 := rfl
    have gA : processGPS5Sample false c3S1 ⟨45, 10, 1, 0, 0⟩ = Except.ok c3S2 := by
      norm_num [processGPS5Sample, processSampleTail, scaleGPS5, bigJump, c3S1, c3S2,
        abs, max_def]
      all_goals simp
    have gB : processGPS5Sample false c3S2 ⟨46.5, 10, 1, 0, 0⟩ = Except.ok c3S2 := by
      norm_num [processGPS5Sample, processSampleTail, scaleGPS5, bigJump, c3S2,
        abs, max_def]
      all_goals simp
    have gC : processGPS5Sample false c3S2 ⟨45.3, 10, 1, 0, 0⟩ = Except.ok c3S3 := by
      norm_num [processGPS5Sample, processSampleTail, scaleGPS5, bigJump, c3S2, c3S3,
        abs, max_def]
      all_goals simp
    have g2 : processRecord false c3S1
        (Record.GPS5 [⟨45, 10, 1, 0, 0⟩, ⟨46.5, 10, 1, 0, 0⟩, ⟨45.3, 10, 1, 0, 0⟩])
        = Except.ok c3S3 := by
      show processGPS5 false c3S1 [⟨45, 10, 1, 0, 0⟩, ⟨46.5, 10, 1, 0, 0⟩, ⟨45.3, 10, 1, 0, 0⟩]
        = Except.ok c3S3
      rw [processGPS5_cons_ok _ gA, processGPS5_cons_ok _ gB, processGPS5_cons_ok _ gC]
      rfl
    rw [processRecords_cons_ok _ g1, processRecords_cons_ok _ g2, processRecords_nil]
    rfl

/-- Witness for C3 at a concrete state: previous latitude 45, candidate 46.5. -/
def glitchState : FSMState :=
  ⟨some 45, some 10, [⟨45, 10, 1, Timestamp.fromGPSU 100, 0⟩], ⟨1, 1, 1⟩, some 100, ⟨0, 0⟩,
   some 100, 1, 0, 0, 0, none, 0⟩

theorem C3_spatial_glitch_filter_witness :
    glitchState.last_lat = some 45 ∧
    |(|(45 : ℚ)| - |(scaleGPS5 glitchState.SCAL ⟨46.5, 10, 1, 0, 0⟩).lat|)| > 1 ∧
    processSampleTail glitchState ⟨46.5, 10, 1, 0, 0⟩ = Except.ok glitchState :=
  ⟨rfl, by norm_num [scaleGPS5, glitchState, abs, max_def],
    C3_spatial_glitch_filter.1 glitchState ⟨46.5, 10, 1, 0, 0⟩ 45 rfl
      (by norm_num [scaleGPS5, glitchState, abs, max_def])⟩

/-- Claim C4: a sample whose latitude, longitude and altitude are all exactly
zero is rejected with only the `empty` counter incremented, for `GPS5` samples
and for `GPRI` records alike, whatever the fix state, skip policy and scale. -/
theorem C4_empty_sample :
    (∀ (skip : Bool) (st : FSMState) (item : GPS5Sample),
        item.lat = 0 → item.lon = 0 → item.alt = 0 →
        processGPS5Sample skip st item = Except.ok { st with empty := st.empty + 1 }) ∧
    (∀ (skip : Bool) (st : FSMState) (s : GPRISample),
        s.lat = 0 → s.lon = 0 → s.alt = 0 →
        processRecord skip st (Record.GPRI s) = Except.ok { st with empty := st.empty + 1 }) := by
  constructor
  · intro skip st item h1 h2 h3
    simp [processGPS5Sample, h1, h2, h3]
  · intro skip st s h1 h2 h3
    simp [processRecord, h1, h2, h3]

/-- Witness for C4: the all-zero sample under a no-fix state, skip on, and a
non-trivial scale still only bumps `empty`. -/
def emptyWitnessState : FSMState :=
  ⟨none, none, [], ⟨2, 4, 1⟩, none, ⟨0, 0⟩, none, 0, 0, 0, 0, some 0, 0⟩

theorem C4_empty_sample_witness :
    ((0 : ℚ) = 0 ∧ (0 : ℚ) = 0 ∧ (0 : ℚ) = 0) ∧
    processGPS5Sample true emptyWitnessState ⟨0, 0, 0, 3, 4⟩
      = Except.ok { emptyWitnessState with empty := emptyWitnessState.empty + 1 } :=
  ⟨⟨rfl, rfl, rfl⟩, C4_empty_sample.1 true emptyWitnessState ⟨0, 0, 0, 3, 4⟩ rfl rfl rfl⟩

end Gopro2Gpx

namespace Gopro2Gpx

/-- Claim C5: a non-empty `GPS5` sample processed under active fix code 0
always bumps `badfix`; with skip on it is rejected and `badfixskip` is also
bumped; with skip off `badfixskip` is untouched and the sample continues
through scaling and the glitch filter. -/
theorem C5_badfix_policy :
    ∀ (skip : Bool) (st : FSMState) (item : GPS5Sample),
      ¬(item.lon = item.lat ∧ item.lat = item.alt ∧ item.alt = 0) →
      st.GPSFIX = some 0 →
      processGPS5Sample skip st item =
        (if skip then
          Except.ok { st with badfix := st.badfix + 1, badfixskip := st.badfixskip + 1 }
        else processSampleTail { st with badfix := st.badfix + 1 } item) := by
  intro skip st item h1 h2
  simp only [processGPS5Sample, if_neg h1, h2, if_pos]

/-- A state whose active fix code is 0, used in witnesses. -/
def badfixState : FSMState :=
  ⟨none, none, [], ⟨1, 1, 1⟩, some 50, ⟨0, 0⟩, some 50, 0, 0, 0, 0, some 0, 0⟩

/-- Witness for C5 with skip off: the sample goes on to `processSampleTail`. -/
theorem C5_badfix_policy_witness :
    ¬((2 : ℚ) = 1 ∧ (1 : ℚ) = 3 ∧ (3 : ℚ) = 0) ∧
    badfixState.GPSFIX = some 0 ∧
    processGPS5Sample false badfixState ⟨1, 2, 3, 0, 0⟩ =
      processSampleTail { badfixState with badfix := badfixState.badfix + 1 } ⟨1, 2, 3, 0, 0⟩ :=
  ⟨by norm_num, rfl, by
    have h := C5_badfix_policy false badfixState ⟨1, 2, 3, 0, 0⟩ (by norm_num) rfl
    simpa using h⟩

/-- Claim C6: a sample reaching the scaling step is divided fieldwise by the
active ScaleVector; (10, 20, 5) under scale (2, 4, 1) becomes (5, 5, 5); an
accepted point carries exactly the raw-over-scale values. -/
theorem C6_scale_application :
    (∀ (sc : XYZData) (item : GPS5Sample),
        scaleGPS5 sc item =
          ⟨item.lat / sc.x, item.lon / sc.y, item.alt / sc.z, item.speed, item.speed3d⟩) ∧
    scaleGPS5 ⟨2, 4, 1⟩ ⟨10, 20, 5, 0, 0⟩ = ⟨5, 5, 5, 0, 0⟩ ∧
    (∀ (st : FSMState) (item : GPS5Sample) (t : ℕ),
        st.GPSU = some t →
        bigJump st.last_lat ((scaleGPS5 st.SCAL item).lat) = false →
        bigJump st.last_lon ((scaleGPS5 st.SCAL item).lon) = false →
        processSampleTail st item =
          Except.ok { st with
            points := st.points ++ [⟨item.lat / st.SCAL.x, item.lon / st.SCAL.y,
              item.alt / st.SCAL.z, Timestamp.fromGPSU t, item.speed⟩]
            ok := st.ok + 1
            last_lat := some (item.lat / st.SCAL.x)
            last_lon := some (item.lon / st.SCAL.y) }) := by
  refine ⟨fun sc item => rfl, by norm_num [scaleGPS5], ?_⟩
  intro st item t h0 h1 h2
  have h1' : bigJump st.last_lat (item.lat / st.SCAL.x) = false := h1
  have h2' : bigJump st.last_lon (item.lon / st.SCAL.y) = false := h2
  simp [processSampleTail, scaleGPS5, h0, h1', h2']

/-- A state with a device time and scale (2, 4, 1), used in witnesses. -/
def c6State : FSMState :=
  ⟨none, none, [], ⟨2, 4, 1⟩, some 7, ⟨0, 0⟩, some 7, 0, 0, 0, 0, none, 0⟩

theorem C6_scale_application_witness :
    c6State.GPSU = some 7 ∧
    bigJump c6State.last_lat ((scaleGPS5 c6State.SCAL ⟨10, 20, 5, 0, 0⟩).lat) = false ∧
    bigJump c6State.last_lon ((scaleGPS5 c6State.SCAL ⟨10, 20, 5, 0, 0⟩).lon) = false ∧
    processSampleTail c6State ⟨10, 20, 5, 0, 0⟩ =
      Except.ok { c6State with
        points := c6State.points ++ [⟨(10 : ℚ) / c6State.SCAL.x, (20 : ℚ) / c6State.SCAL.y,
          (5 : ℚ) / c6State.SCAL.z, Timestamp.fromGPSU 7, 0⟩]
        ok := c6State.ok + 1
        last_lat := some ((10 : ℚ) / c6State.SCAL.x)
        last_lon := some ((20 : ℚ) / c6State.SCAL.y) } :=
  ⟨rfl, rfl, rfl, C6_scale_application.2.2 c6State ⟨10, 20, 5, 0, 0⟩ 7 rfl rfl rfl⟩

/-- Claim C7: a `SYST` record replaces the system-time context exactly when
both scaled fields are non-zero; a `GPRI` sample past the empty and fix checks
yields a point (with the system time as timestamp) exactly when the stored
context has both fields non-zero, with no glitch filtering and no update of
the previous-point references. -/
theorem C7_syst_and_gpri :
    (∀ (skip : Bool) (st : FSMState) (v : SYSTData),
        processRecord skip st (Record.SYST v) =
          Except.ok
            (if v.seconds / st.SCAL.x ≠ 0 ∧ v.miliseconds / st.SCAL.y ≠ 0 then
              { st with SYST := ⟨v.seconds / st.SCAL.x, v.miliseconds / st.SCAL.y⟩ }
            else st)) ∧
    (∀ (st : FSMState) (s : GPRISample),
        st.SYST.seconds = 0 ∨ st.SYST.miliseconds = 0 →
        processGPRITail st s = st) ∧
    (∀ (st : FSMState) (s : GPRISample),
        st.SYST.seconds ≠ 0 → st.SYST.miliseconds ≠ 0 →
        processGPRITail st s =
          { st with
            points := st.points ++
              [⟨(scaleGPRI st.SCAL s).lat, (scaleGPRI st.SCAL s).lon, (scaleGPRI st.SCAL s).alt,
                Timestamp.fromSYST st.SYST.miliseconds, (scaleGPRI st.SCAL s).speed⟩]
            ok := st.ok + 1 }) ∧
    (∀ (skip : Bool) (st : FSMState) (s : GPRISample),
        ¬(s.lon = s.lat ∧ s.lat = s.alt ∧ s.alt = 0) →
        st.GPSFIX ≠ some 0 →
        processRecord skip st (Record.GPRI s) = Except.ok (processGPRITail st s)) := by
  refine ⟨?_, ?_, ?_, ?_⟩
  · intro skip st v
    simp only [processRecord]
    split <;> rfl
  · intro st s h
    rcases h with h | h <;> simp [processGPRITail, h]
  · intro st s h1 h2
    simp [processGPRITail, h1, h2]
  · intro skip st s h1 h2
    simp only [processRecord, if_neg h1, if_neg h2]

theorem C7_syst_and_gpri_witness :
    ¬((2 : ℚ) = 1 ∧ (1 : ℚ) = 3 ∧ (3 : ℚ) = 0) ∧
    initState.GPSFIX ≠ some 0 ∧
    processRecord false initState (Record.GPRI ⟨1, 2, 3, 0⟩)
      = Except.ok (processGPRITail initState ⟨1, 2, 3, 0⟩) :=
  ⟨by norm_num, by simp [initState],
    C7_syst_and_gpri.2.2.2 false initState ⟨1, 2, 3, 0⟩ (by norm_num) (by simp [initState])⟩

/-- Claim C8: accepted points are only ever appended (each record's processing
extends the list at its end), so the list preserves encounter order; two
per-file runs both start from the initial state and `main` concatenates their
point lists in order. -/
theorem C8_order_and_concatenation :
    (∀ (skip : Bool) (st : FSMState) (r : Record) (st' : FSMState),
        processRecord skip st r = Except.ok st' →
        ∃ tl, st'.points = st.points ++ tl) ∧
    (∀ (skip : Bool) (st : FSMState) (rs : List Record) (st' : FSMState),
        processRecords skip st rs = Except.ok st' →
        ∃ tl, st'.points = st.points ++ tl) ∧
    (∀ (skip : Bool) (rs1 rs2 : List Record) (p1 p2 : List GPSPoint) (t1 t2 : Option ℕ),
        BuildGPSPoints rs1 skip = Except.ok (p1, t1) →
        BuildGPSPoints rs2 skip = Except.ok (p2, t2) →
        mainAccumulate skip [rs1, rs2] [] = Except.ok (p1 ++ p2)) := by
  refine ⟨?_, ?_, ?_⟩
  · intro skip st r st' h
    exact (processRecord_shape h).1
  · intro skip st rs st' h
    exact (processRecords_shape h).1
  · intro skip rs1 rs2 p1 p2 t1 t2 h1 h2
    simp [mainAccumulate, h1, h2]

theorem C8_order_and_concatenation_witness :
    BuildGPSPoints [] false = Except.ok ([], none) ∧
    mainAccumulate false [[], []] [] = Except.ok (([] : List GPSPoint) ++ []) :=
  ⟨rfl, C8_order_and_concatenation.2.2 false [] [] [] [] none none rfl rfl⟩

/-- Counterexample to claim C9 as stated: with an empty list of input files
zero points are accumulated, yet the run does not exit — it goes on to write
the output files. -/
theorem C9_zero_points_counterexample :
    totalPoints [] = 0 ∧ mainRun [] ≠ MainOutcome.exit0 :=
  ⟨rfl, by simp [mainRun, mainLoop]⟩

/-- Claim C9 (amended): for every NON-EMPTY list of input files, if zero
points have been accumulated after processing them all, the run exits before
writing any output file. -/
theorem C9_exit_on_zero_points :
    ∀ (files : List FileResult), files ≠ [] → totalPoints files = 0 →
      mainRun files = MainOutcome.exit0 := by
  intro files hne htot
  cases files with
  | nil => exact absurd rfl hne
  | cons f fs =>
      have hf : f.points.length = 0 := by
        simp [totalPoints] at htot
        simp [htot.1]
      simp [mainRun, mainLoop, hf]

theorem C9_exit_on_zero_points_witness :
    ([⟨[], none⟩] : List FileResult) ≠ [] ∧ totalPoints [⟨[], none⟩] = 0 ∧
    mainRun [⟨[], none⟩] = MainOutcome.exit0 :=
  ⟨by simp, rfl, C9_exit_on_zero_points [⟨[], none⟩] (by simp) rfl⟩

lemma processSampleTail_gpsuNone {st : FSMState} {item : GPS5Sample}
    (h0 : st.GPSU = none)
    (h1 : bigJump st.last_lat ((scaleGPS5 st.SCAL item).lat) = false)
    (h2 : bigJump st.last_lon ((scaleGPS5 st.SCAL item).lon) = false) :
    processSampleTail st item = Except.error BuildError.gpsuNone := by
  simp [processSampleTail, h0, h1, h2]

/-- Claim C10: a `GPS5` sample that passes the empty, fix and glitch checks
while no `GPSU` record has ever been seen makes `BuildGPSPoints` fail at
timestamp construction instead of producing a point with a default time. -/
theorem C10_no_gpsu_fails :
    ∀ (skip : Bool) (rs rest : List Record) (st : FSMState) (item : GPS5Sample),
      (∀ r ∈ rs, r.isGPSU = false) →
      processRecords skip initState rs = Except.ok st →
      ¬(item.lon = item.lat ∧ item.lat = item.alt ∧ item.alt = 0) →
      ¬(st.GPSFIX = some 0 ∧ skip = true) →
      bigJump st.last_lat ((scaleGPS5 st.SCAL item).lat) = false →
      bigJump st.last_lon ((scaleGPS5 st.SCAL item).lon) = false →
      BuildGPSPoints (rs ++ Record.GPS5 [item] :: rest) skip
        = Except.error BuildError.gpsuNone := by
  intro skip rs rest st item hnog hok hempty hnskip hlat hlon
  have hGPSU : st.GPSU = none := by
    have h := (processRecords_shape hok).2 hnog
    simpa [initState] using h
  have hsample : processGPS5Sample skip st item = Except.error BuildError.gpsuNone := by
    simp only [processGPS5Sample, if_neg hempty]
    by_cases hfix : st.GPSFIX = some 0
    · rw [if_pos hfix]
      have hskip : skip = false := by
        cases skip
        · rfl
        · exact absurd ⟨hfix, rfl⟩ hnskip
      subst hskip
      simpa using @processSampleTail_gpsuNone
        { st with badfix := st.badfix + 1 } item hGPSU hlat hlon
    · rw [if_neg hfix]
      exact processSampleTail_gpsuNone hGPSU hlat hlon
  have hrec : processRecord skip st (Record.GPS5 [item]) = Except.error BuildError.gpsuNone := by
    show processGPS5 skip st [item] = Except.error BuildError.gpsuNone
    simp [processGPS5, hsample]
  simp only [BuildGPSPoints, processRecords_append, hok, processRecords, hrec]
  rfl

theorem C10_no_gpsu_fails_witness :
    processRecords false initState [] = Except.ok initState ∧
    BuildGPSPoints [Record.GPS5 [⟨1, 2, 3, 0, 0⟩]] false
      = Except.error BuildError.gpsuNone :=
  ⟨rfl, C10_no_gpsu_fails false [] [] initState ⟨1, 2, 3, 0, 0⟩ (by simp) rfl
    (by norm_num) (by simp [initState]) rfl rfl⟩

end Gopro2Gpx
